import Mathlib

/-!
# Consensus parameters of `rust-bitcoin` (`src/consensus/params.rs`)

Shallow embedding of the consensus-parameter registry: the `Network`
enumeration, the `Uint256` proof-of-work-limit constants, the `Params`
record, the constructor `Params.new`, and the derived operation
`Params.difficulty_adjustment_interval`.

Machine integers of the source (`u32`, `u64`) are embedded as `Nat`;
every literal stored in the records fits its source width, and the only
arithmetic performed (`pow_target_timespan / pow_target_spacing` on
`u64`) cannot overflow, so no modular reduction is needed.  The `u64`
division of the source panics on a zero divisor; the embedding returns
`Option Nat`, with `none` for the panic.
-/

/-- `Network` from `network::constants` — the closed enumeration of
supported chains. -/
inductive Network where
  | Bitcoin
  | Testnet
  | Regtest
  | Dogecoin
  | Dogetest
deriving DecidableEq, Repr

/-- `Uint256` from `util::uint` — four 64-bit words, least-significant
word first.  Only equality is used by this core. -/
structure Uint256 where
  w0 : Nat
  w1 : Nat
  w2 : Nat
  w3 : Nat
deriving DecidableEq, Repr

/-- Lowest possible difficulty for Mainnet. -/
def MAX_BITS_BITCOIN : Uint256 :=
  ⟨0xffffffffffffffff, 0xffffffffffffffff, 0xffffffffffffffff, 0x00000000ffffffff⟩

/-- Lowest possible difficulty for Testnet. -/
def MAX_BITS_TESTNET : Uint256 :=
  ⟨0xffffffffffffffff, 0xffffffffffffffff, 0xffffffffffffffff, 0x00000000ffffffff⟩

/-- Lowest possible difficulty for Regtest. -/
def MAX_BITS_REGTEST : Uint256 :=
  ⟨0xffffffffffffffff, 0xffffffffffffffff, 0xffffffffffffffff, 0x7fffffffffffffff⟩

/-- Lowest possible difficulty for Dogecoin mainnet. -/
def MAX_BITS_DOGECOIN : Uint256 :=
  ⟨0xffffffffffffffff, 0xffffffffffffffff, 0xffffffffffffffff, 0x00000fffffffffff⟩

/-- Lowest possible difficulty for Dogecoin testnet. -/
def MAX_BITS_DOGETEST : Uint256 :=
  ⟨0xffffffffffffffff, 0xffffffffffffffff, 0xffffffffffffffff, 0x00000fffffffffff⟩

/-- `Params` — parameters that influence chain consensus. -/
structure Params where
  network : Network
  bip16_time : Nat
  bip34_height : Nat
  bip65_height : Nat
  bip66_height : Nat
  rule_change_activation_threshold : Nat
  miner_confirmation_window : Nat
  pow_limit : Uint256
  pow_target_spacing : Nat
  pow_target_timespan : Nat
  allow_min_difficulty_blocks : Bool
  no_pow_retargeting : Bool
deriving DecidableEq, Repr

/-- `Params::new` — creates the parameter set for the given network. -/
def Params.new (network : Network) : Params :=
  match network with
  | Network.Bitcoin =>
      { network := Network.Bitcoin
        bip16_time := 1333238400
        bip34_height := 227931
        bip65_height := 388381
        bip66_height := 363725
        rule_change_activation_threshold := 1916
        miner_confirmation_window := 2016
        pow_limit := MAX_BITS_BITCOIN
        pow_target_spacing := 10 * 60
        pow_target_timespan := 14 * 24 * 60 * 60
        allow_min_difficulty_blocks := false
        no_pow_retargeting := false }
  | Network.Testnet =>
      { network := Network.Testnet
        bip16_time := 1333238400
        bip34_height := 21111
        bip65_height := 581885
        bip66_height := 330776
        rule_change_activation_threshold := 1512
        miner_confirmation_window := 2016
        pow_limit := MAX_BITS_TESTNET
        pow_target_spacing := 10 * 60
        pow_target_timespan := 14 * 24 * 60 * 60
        allow_min_difficulty_blocks := true
        no_pow_retargeting := false }
  | Network.Regtest =>
      { network := Network.Regtest
        bip16_time := 1333238400
        bip34_height := 100000000
        bip65_height := 1351
        bip66_height := 1251
        rule_change_activation_threshold := 108
        miner_confirmation_window := 144
        pow_limit := MAX_BITS_REGTEST
        pow_target_spacing := 10 * 60
        pow_target_timespan := 14 * 24 * 60 * 60
        allow_min_difficulty_blocks := true
        no_pow_retargeting := true }
  | Network.Dogecoin =>
      { network := Network.Dogecoin
        bip16_time := 1333238400
        bip34_height := 1034383
        bip65_height := 3464751
        bip66_height := 1034383
        rule_change_activation_threshold := 9576
        miner_confirmation_window := 10080
        pow_limit := MAX_BITS_DOGECOIN
        pow_target_spacing := 60
        pow_target_timespan := 4 * 60 * 60
        allow_min_difficulty_blocks := false
        no_pow_retargeting := false }
  | Network.Dogetest =>
      { network := Network.Dogetest
        bip16_time := 1333238400
        bip34_height := 708658
        bip65_height := 1854705
        bip66_height := 708658
        rule_change_activation_threshold := 2880
        miner_confirmation_window := 10080
        pow_limit := MAX_BITS_DOGETEST
        pow_target_spacing := 60
        pow_target_timespan := 4 * 60 * 60
        allow_min_difficulty_blocks := true
        no_pow_retargeting := false }

/-- `Params::difficulty_adjustment_interval` — the number of blocks
between difficulty adjustments, `pow_target_timespan / pow_target_spacing`
as `u64` division.  `u64` division in Rust panics when the divisor is
zero; the embedding returns `none` there and `some` of the truncating
quotient otherwise. -/
def Params.difficulty_adjustment_interval (p : Params) : Option Nat :=
  if p.pow_target_spacing = 0 then none
  else some (p.pow_target_timespan / p.pow_target_spacing)

/-- C1: for each of the five networks, `Params.new` returns exactly the
literal golden record of the source, every field compared bit-for-bit
(the `pow_limit` words are least-significant first). -/
theorem params_new_golden_values :
    Params.new Network.Bitcoin =
      { network := Network.Bitcoin
        bip16_time := 1333238400
        bip34_height := 227931
        bip65_height := 388381
        bip66_height := 363725
        rule_change_activation_threshold := 1916
        miner_confirmation_window := 2016
        pow_limit := ⟨0xffffffffffffffff, 0xffffffffffffffff,
                      0xffffffffffffffff, 0x00000000ffffffff⟩
        pow_target_spacing := 600
        pow_target_timespan := 1209600
        allow_min_difficulty_blocks := false
        no_pow_retargeting := false } ∧
    Params.new Network.Testnet =
      { network := Network.Testnet
        bip16_time := 1333238400
        bip34_height := 21111
        bip65_height := 581885
        bip66_height := 330776
        rule_change_activation_threshold := 1512
        miner_confirmation_window := 2016
        pow_limit := ⟨0xffffffffffffffff, 0xffffffffffffffff,
                      0xffffffffffffffff, 0x00000000ffffffff⟩
        pow_target_spacing := 600
        pow_target_timespan := 1209600
        allow_min_difficulty_blocks := true
        no_pow_retargeting := false } ∧
    Params.new Network.Regtest =
      { network := Network.Regtest
        bip16_time := 1333238400
        bip34_height := 100000000
        bip65_height := 1351
        bip66_height := 1251
        rule_change_activation_threshold := 108
        miner_confirmation_window := 144
        pow_limit := ⟨0xffffffffffffffff, 0xffffffffffffffff,
                      0xffffffffffffffff, 0x7fffffffffffffff⟩
        pow_target_spacing := 600
        pow_target_timespan := 1209600
        allow_min_difficulty_blocks := true
        no_pow_retargeting := true } ∧
    Params.new Network.Dogecoin =
      { network := Network.Dogecoin
        bip16_time := 1333238400
        bip34_height := 1034383
        bip65_height := 3464751
        bip66_height := 1034383
        rule_change_activation_threshold := 9576
        miner_confirmation_window := 10080
        pow_limit := ⟨0xffffffffffffffff, 0xffffffffffffffff,
                      0xffffffffffffffff, 0x00000fffffffffff⟩
        pow_target_spacing := 60
        pow_target_timespan := 14400
        allow_min_difficulty_blocks := false
        no_pow_retargeting := false } ∧
    Params.new Network.Dogetest =
      { network := Network.Dogetest
        bip16_time := 1333238400
        bip34_height := 708658
        bip65_height := 1854705
        bip66_height := 708658
        rule_change_activation_threshold := 2880
        miner_confirmation_window := 10080
        pow_limit := ⟨0xffffffffffffffff, 0xffffffffffffffff,
                      0xffffffffffffffff, 0x00000fffffffffff⟩
        pow_target_spacing := 60
        pow_target_timespan := 14400
        allow_min_difficulty_blocks := true
        no_pow_retargeting := false } :=
  ⟨rfl, rfl, rfl, rfl, rfl⟩

/-- C2: `difficulty_adjustment_interval` computes the truncating integer
division of `pow_target_timespan` by `pow_target_spacing` whenever the
divisor is nonzero, and on the five built-in records it yields 2016,
2016, 2016, 240 and 240 respectively. -/
theorem difficulty_adjustment_interval_values :
    (∀ p : Params, p.pow_target_spacing ≠ 0 →
      p.difficulty_adjustment_interval =
        some (p.pow_target_timespan / p.pow_target_spacing)) ∧
    (Params.new Network.Bitcoin).difficulty_adjustment_interval = some 2016 ∧
    (Params.new Network.Testnet).difficulty_adjustment_interval = some 2016 ∧
    (Params.new Network.Regtest).difficulty_adjustment_interval = some 2016 ∧
    (Params.new Network.Dogecoin).difficulty_adjustment_interval = some 240 ∧
    (Params.new Network.Dogetest).difficulty_adjustment_interval = some 240 := by
  refine ⟨fun p h => ?_, by decide, by decide, by decide, by decide, by decide⟩
  simp [Params.difficulty_adjustment_interval, h]

/-- Witness for C2 at the primary mainnet record. -/
theorem difficulty_adjustment_interval_values_witness :
    (Params.new Network.Bitcoin).pow_target_spacing ≠ 0 ∧
    (Params.new Network.Bitcoin).difficulty_adjustment_interval =
      some ((Params.new Network.Bitcoin).pow_target_timespan /
            (Params.new Network.Bitcoin).pow_target_spacing) :=
  ⟨by decide,
   difficulty_adjustment_interval_values.1 (Params.new Network.Bitcoin) (by decide)⟩

/-- C3: the only failure mode of `difficulty_adjustment_interval` is a
zero `pow_target_spacing`: the operation succeeds on every record with a
nonzero spacing, fails exactly when the spacing is zero, and every one
of the five built-in records has a nonzero spacing, so the fault never
occurs on them. -/
theorem difficulty_adjustment_interval_failure_mode :
    (∀ p : Params, p.pow_target_spacing ≠ 0 →
      (p.difficulty_adjustment_interval).isSome = true) ∧
    (∀ p : Params, p.pow_target_spacing = 0 →
      p.difficulty_adjustment_interval = none) ∧
    (∀ n : Network, (Params.new n).pow_target_spacing ≠ 0) := by
  refine ⟨fun p h => ?_, fun p h => ?_, fun n => ?_⟩
  · simp [Params.difficulty_adjustment_interval, h]
  · simp [Params.difficulty_adjustment_interval, h]
  · cases n <;> decide

/-- Witness for C3 at the regression-test record. -/
theorem difficulty_adjustment_interval_failure_mode_witness :
    (Params.new Network.Regtest).pow_target_spacing ≠ 0 ∧
    ((Params.new Network.Regtest).difficulty_adjustment_interval).isSome = true :=
  ⟨by decide,
   difficulty_adjustment_interval_failure_mode.1 (Params.new Network.Regtest)
     (by decide)⟩

/-- C4: every built-in record satisfies
`rule_change_activation_threshold ≤ miner_confirmation_window`, with
the concrete pairs (1916, 2016), (1512, 2016), (108, 144), (9576, 10080)
and (2880, 10080). -/
theorem rule_change_threshold_le_window :
    (∀ n : Network, (Params.new n).rule_change_activation_threshold ≤
      (Params.new n).miner_confirmation_window) ∧
    (Params.new Network.Bitcoin).rule_change_activation_threshold = 1916 ∧
    (Params.new Network.Bitcoin).miner_confirmation_window = 2016 ∧
    (Params.new Network.Testnet).rule_change_activation_threshold = 1512 ∧
    (Params.new Network.Testnet).miner_confirmation_window = 2016 ∧
    (Params.new Network.Regtest).rule_change_activation_threshold = 108 ∧
    (Params.new Network.Regtest).miner_confirmation_window = 144 ∧
    (Params.new Network.Dogecoin).rule_change_activation_threshold = 9576 ∧
    (Params.new Network.Dogecoin).miner_confirmation_window = 10080 ∧
    (Params.new Network.Dogetest).rule_change_activation_threshold = 2880 ∧
    (Params.new Network.Dogetest).miner_confirmation_window = 10080 := by
  refine ⟨fun n => ?_, by decide, by decide, by decide, by decide, by decide,
    by decide, by decide, by decide, by decide, by decide⟩
  cases n <;> decide

/-- C5: every built-in record has strictly positive
`pow_target_timespan` and `pow_target_spacing`. -/
theorem pow_target_fields_positive :
    ∀ n : Network, 0 < (Params.new n).pow_target_timespan ∧
      0 < (Params.new n).pow_target_spacing := by
  intro n
  cases n <;> decide

/-- C6: the primary-family mainnet and testnet share a bitwise-identical
`pow_limit`; the second-family mainnet and testnet share theirs; the
second family's shared limit differs from the primary family's; and the
regression-test limit is a further distinct constant. -/
theorem pow_limit_family_grouping :
    (Params.new Network.Bitcoin).pow_limit = (Params.new Network.Testnet).pow_limit ∧
    (Params.new Network.Dogecoin).pow_limit = (Params.new Network.Dogetest).pow_limit ∧
    (Params.new Network.Dogecoin).pow_limit ≠ (Params.new Network.Bitcoin).pow_limit ∧
    (Params.new Network.Regtest).pow_limit ≠ (Params.new Network.Bitcoin).pow_limit ∧
    (Params.new Network.Regtest).pow_limit ≠ (Params.new Network.Dogecoin).pow_limit := by
  refine ⟨by decide, by decide, by decide, by decide, by decide⟩

/-- C7: `Params.new` is total — every value of the closed `Network`
enumeration has a defined result — and deterministic: two calls with
equal network values yield value-identical records (every field equal;
record equality on `Params` is field-wise equality). -/
theorem params_new_total_deterministic :
    (∀ n : Network, ∃ p : Params, Params.new n = p) ∧
    (∀ n₁ n₂ : Network, n₁ = n₂ → Params.new n₁ = Params.new n₂) :=
  ⟨fun n => ⟨Params.new n, rfl⟩, fun n₁ n₂ h => h ▸ rfl⟩

/-- Witness for C7 at the primary mainnet value. -/
theorem params_new_total_deterministic_witness :
    Params.new Network.Bitcoin = Params.new Network.Bitcoin :=
  params_new_total_deterministic.2 Network.Bitcoin Network.Bitcoin rfl

/-- C8: the regression-test record has both `no_pow_retargeting` and
`allow_min_difficulty_blocks` set, and the two flags are not cross-wired:
primary mainnet has both false, primary testnet has only
`allow_min_difficulty_blocks`, second-family mainnet has both false,
second-family testnet has only `allow_min_difficulty_blocks`. -/
theorem retargeting_flags_per_network :
    (Params.new Network.Regtest).no_pow_retargeting = true ∧
    (Params.new Network.Regtest).allow_min_difficulty_blocks = true ∧
    (Params.new Network.Bitcoin).no_pow_retargeting = false ∧
    (Params.new Network.Bitcoin).allow_min_difficulty_blocks = false ∧
    (Params.new Network.Testnet).allow_min_difficulty_blocks = true ∧
    (Params.new Network.Testnet).no_pow_retargeting = false ∧
    (Params.new Network.Dogecoin).no_pow_retargeting = false ∧
    (Params.new Network.Dogecoin).allow_min_difficulty_blocks = false ∧
    (Params.new Network.Dogetest).allow_min_difficulty_blocks = true ∧
    (Params.new Network.Dogetest).no_pow_retargeting = false := by
  refine ⟨rfl, rfl, rfl, rfl, rfl, rfl, rfl, rfl, rfl, rfl⟩

/-- C9: the record returned by `Params.new` always carries the network
that was requested in its `network` field. -/
theorem params_new_network_field :
    ∀ n : Network, (Params.new n).network = n := by
  intro n
  cases n <;> rfl

/-- C10: `difficulty_adjustment_interval` reads no field other than
`pow_target_timespan` and `pow_target_spacing` — any two `Params` values
agreeing on those two fields get the same result, whatever their other
fields. -/
theorem difficulty_adjustment_interval_depends_only_on_pow_fields :
    ∀ p q : Params,
      p.pow_target_timespan = q.pow_target_timespan →
      p.pow_target_spacing = q.pow_target_spacing →
      p.difficulty_adjustment_interval = q.difficulty_adjustment_interval := by
  intro p q ht hs
  simp [Params.difficulty_adjustment_interval, ht, hs]

/-- Witness for C10: the primary mainnet record and a record differing
from it in every field except the two pow-timing fields map to the same
interval. -/
theorem difficulty_adjustment_interval_depends_only_on_pow_fields_witness :
    (Params.new Network.Bitcoin).pow_target_timespan =
      (({ network := Network.Dogetest
          bip16_time := 0
          bip34_height := 1
          bip65_height := 2
          bip66_height := 3
          rule_change_activation_threshold := 4
          miner_confirmation_window := 5
          pow_limit := ⟨6, 7, 8, 9⟩
          pow_target_spacing := 600
          pow_target_timespan := 1209600
          allow_min_difficulty_blocks := true
          no_pow_retargeting := true } : Params)).pow_target_timespan ∧
    (Params.new Network.Bitcoin).pow_target_spacing =
      (({ network := Network.Dogetest
          bip16_time := 0
          bip34_height := 1
          bip65_height := 2
          bip66_height := 3
          rule_change_activation_threshold := 4
          miner_confirmation_window := 5
          pow_limit := ⟨6, 7, 8, 9⟩
          pow_target_spacing := 600
          pow_target_timespan := 1209600
          allow_min_difficulty_blocks := true
          no_pow_retargeting := true } : Params)).pow_target_spacing ∧
    (Params.new Network.Bitcoin).difficulty_adjustment_interval =
      (({ network := Network.Dogetest
          bip16_time := 0
          bip34_height := 1
          bip65_height := 2
          bip66_height := 3
          rule_change_activation_threshold := 4
          miner_confirmation_window := 5
          pow_limit := ⟨6, 7, 8, 9⟩
          pow_target_spacing := 600
          pow_target_timespan := 1209600
          allow_min_difficulty_blocks := true
          no_pow_retargeting := true } : Params)).difficulty_adjustment_interval :=
  ⟨rfl, rfl,
   difficulty_adjustment_interval_depends_only_on_pow_fields
     (Params.new Network.Bitcoin)
     { network := Network.Dogetest
       bip16_time := 0
       bip34_height := 1
       bip65_height := 2
       bip66_height := 3
       rule_change_activation_threshold := 4
       miner_confirmation_window := 5
       pow_limit := ⟨6, 7, 8, 9⟩
       pow_target_spacing := 600
       pow_target_timespan := 1209600
       allow_min_difficulty_blocks := true
       no_pow_retargeting := true } rfl rfl⟩
